import Mathlib

/-!
Shallow embedding of the gist command-line client (`gist/client.py`): the
configuration-file resolution chain, the editor resolution chain, the
`content` command output, and the `create` command's content acquisition,
empty-content validation, encryption precheck and remote-request build.

Python strings are modelled as Lean `String` (for `elide`, which needs
length arithmetic, as `List Char`); values that may be Python `None` are
modelled as `Option`; raised exceptions are modelled with `Except`.
External collaborators (the filesystem, standard input, the editor
process, the GPG engine) are passed in as explicit parameters, exactly as
the spec treats them.
-/

namespace Gist

/-- Python exceptions raised by the client: the client's own `GistError`,
`ValueError` (used for config-load and editor-resolution failures),
`configparser.NoSectionError` / `configparser.NoOptionError`, and an
I/O failure when opening a file path. -/
inductive PyErr where
  | gistError (msg : String)
  | valueError (msg : String)
  | noSectionError (sec : String)
  | noOptionError (sec : String) (opt : String)
  | ioError (path : String)
deriving DecidableEq

/-- A parsed configuration file: ordered sections, each an ordered list of
key/value options (the `configparser.ConfigParser` data the client reads). -/
def Config : Type := List (String × List (String × String))

/-- Whether the parsed configuration has a section of the given name. -/
def hasSection (cfg : Config) (s : String) : Bool :=
  (cfg.find? (fun p => p.1 == s)).isSome

/-- Embeds `config.get(section, option)`: raises `NoSectionError` when the
section is absent, `NoOptionError` when the option is absent from the
section, else returns the stored value. -/
def configGet (cfg : Config) (s o : String) : Except PyErr String :=
  match cfg.find? (fun p => p.1 == s) with
  | none => .error (.noSectionError s)
  | some sec =>
    match sec.2.find? (fun p => p.1 == o) with
    | none => .error (.noOptionError s o)
    | some kv => .ok kv.2

/-- Embeds `config.has_option(section, option)`: raises `NoSectionError`
when the section is absent (as CPython's `configparser` does), else reports
whether the option is present. -/
def has_option (cfg : Config) (s o : String) : Except PyErr Bool :=
  match cfg.find? (fun p => p.1 == s) with
  | none => .error (.noSectionError s)
  | some sec => .ok (sec.2.any (fun p => p.1 == o))

/-- Embeds CPython `configparser`'s boolean value parsing (used by
`config.getboolean`): accepts 1/yes/true/on and 0/no/false/off
case-insensitively, raises `ValueError` otherwise. -/
def pyParseBool (v : String) : Except PyErr Bool :=
  let lv := v.toLower
  if lv == "1" || lv == "yes" || lv == "true" || lv == "on" then .ok true
  else if lv == "0" || lv == "no" || lv == "false" || lv == "off" then .ok false
  else .error (.valueError ("Not a boolean: " ++ v))

/-- Embeds `config.getboolean(section, option)`: read the raw value then
parse it as a boolean. -/
def getboolean (cfg : Config) (s o : String) : Except PyErr Bool :=
  match configGet cfg s o with
  | .error e => .error e
  | .ok v => pyParseBool v

/-- Models Python `str.strip()`: drop whitespace from both ends. -/
def pyStrip (s : String) : String :=
  ⟨((s.data.dropWhile Char.isWhitespace).reverse.dropWhile Char.isWhitespace).reverse⟩

/-- Models `os.path.join(a, b)` for the POSIX separator: insert a slash
unless `a` already ends with one. -/
def pathJoin (a b : String) : String :=
  if a.data.getLast? = some '/' then a ++ b else a ++ "/" ++ b

/-- Models `os.path.basename(path)` for slash-separated paths: the suffix
of the path after the last slash. -/
def pyBasename (path : String) : String :=
  ⟨(path.data.reverse.takeWhile (fun c => c != '/')).reverse⟩

/-- Embeds `alternative_config(default)` from `client.py`: return
`~/.config/gist` when it is a regular file, else the supplied default.
`os.path.expanduser` is modelled by the explicit `home` parameter and
`os.path.isfile` by the `isfile` oracle. -/
def alternative_config (isfile : String → Bool) (home : String)
    (default : String) : String :=
  let config_path := home ++ "/.config/gist"
  if isfile config_path then config_path else default

/-- Embeds `xdg_data_config(default)` from `client.py`: when
`$XDG_DATA_HOME` (stripped) is non-empty and `$XDG_DATA_HOME/gist` is a
regular file, return that path, else the supplied default. -/
def xdg_data_config (isfile : String → Bool) (xdgDataHome : Option String)
    (default : String) : String :=
  let config := pyStrip (xdgDataHome.getD "")
  if config != "" then
    let config_path := pathJoin config "gist"
    if isfile config_path then config_path else default
  else default

/-- Embeds the config-path chain in `main` (`client.py` lines 317-319):
start from `~/.gist`, pass it through `alternative_config`, then through
`xdg_data_config`. -/
def resolveConfigPath (isfile : String → Bool) (home : String)
    (xdgDataHome : Option String) : String :=
  let config_path := home ++ "/.gist"
  let config_path := alternative_config isfile home config_path
  xdg_data_config isfile xdgDataHome config_path

/-- Embeds `alternative_editor(default)` from `client.py`: `/usr/bin/editor`
when it exists (the `altExists` oracle models `os.path.exists`), else the
default. -/
def alternative_editor (altExists : Bool) (default : Option String) :
    Option String :=
  if altExists then some "/usr/bin/editor" else default

/-- Embeds `environment_editor(default)` from `client.py`: the stripped
value of `$EDITOR` when that is non-empty, else the default. `env` is the
raw `EDITOR` environment variable (`none` when unset, so
`os.environ.get('EDITOR', '')` is `env.getD ""`). -/
def environment_editor (env : Option String) (default : Option String) :
    Option String :=
  let editor := pyStrip (env.getD "")
  if editor != "" then some editor else default

/-- Embeds `configuration_editor(config, default)` from `client.py`: the
`editor` key of the `gist` section; only `NoOptionError` is caught and
turned into the default — every other exception propagates. -/
def configuration_editor (cfg : Config) (default : Option String) :
    Except PyErr (Option String) :=
  match configGet cfg "gist" "editor" with
  | .ok v => .ok (some v)
  | .error (.noOptionError _ _) => .ok default
  | .error e => .error e

/-- Embeds the editor-resolution chain in `main` (`client.py` lines
334-340): start from `None`, apply `alternative_editor`, then
`environment_editor`, then `configuration_editor`; raise
`ValueError('Unable to find an editor.')` when the result is still `None`. -/
def resolveEditor (cfg : Config) (env : Option String) (altExists : Bool) :
    Except PyErr String :=
  let e0 : Option String := none
  let e1 := alternative_editor altExists e0
  let e2 := environment_editor env e1
  match configuration_editor cfg e2 with
  | .error e => .error e
  | .ok none => .error (.valueError "Unable to find an editor.")
  | .ok (some editor) => .ok editor

/-- Embeds the `FileInfo` namedtuple of `client.py`. The name is an
`Option String` because the Python value can be `None` (the parsed
`<filename>` argument is `None` when not supplied on the command line). -/
structure FileInfo where
  name : Option String
  content : String
deriving DecidableEq

/-- Models Python `str.format` interpolation of a possibly-`None` name:
`None` renders as the text `None`. -/
def pyFmtName : Option String → String
  | none => "None"
  | some s => s

/-- The parsed arguments the `create` branch of `main` consumes.
`filenameEntry` is the entry stored under the `"<filename>"` key of the
parsed-argument dictionary: `none` when the key is absent, `some none`
when the key is present but holds `None` (docopt always inserts the key,
with `None` when the argument was not supplied), `some (some s)` when a
filename was supplied. -/
structure CreateArgs where
  desc : String
  public : Bool
  encrypt : Bool
  FILES : List String
  filenameEntry : Option (Option String)

/-- Embeds `args.get("<filename>", "file1.txt")`: Python `dict.get`
returns the stored value whenever the key is present — even when that
value is `None` — and only falls back to the default when the key is
absent from the dictionary. -/
def argsGetFilename (a : CreateArgs) : Option String :=
  match a.filenameEntry with
  | some v => v
  | none => some "file1.txt"

/-- Embeds the files-mode loop of the `create` branch: for each path in
order, `open(path, 'rb')` / `read().decode('utf-8')` with
`os.path.basename(path)` as the entry name. The filesystem is the
association list `fs` from path to decoded content; a missing path raises. -/
def readFiles (fs : List (String × String)) : List String →
    Except PyErr (List FileInfo)
  | [] => .ok []
  | path :: rest =>
    match fs.find? (fun p => p.1 == path) with
    | none => .error (.ioError path)
    | some kv =>
      match readFiles fs rest with
      | .error e => .error e
      | .ok files => .ok (⟨some (pyBasename path), kv.2⟩ :: files)

/-- Embeds the content-acquisition block of the `create` branch
(`client.py` lines 472-504). `tty` is `sys.stdin.isatty()`, `stdin` the
full piped input, `editorOut` the content of the temporary file after the
editor process exits (the editor is an external collaborator). When stdin
is a terminal: read the supplied files, or run the editor (after the
`delete-tempfiles` lookup, whose failures propagate); otherwise read all
of standard input. -/
def acquireFiles (cfg : Config) (a : CreateArgs) (tty : Bool)
    (stdin : String) (fs : List (String × String)) (editorOut : String) :
    Except PyErr (List FileInfo) :=
  if tty then
    if a.FILES.isEmpty then
      let filename := argsGetFilename a
      let deleteRes : Except PyErr Bool :=
        match has_option cfg "gist" "delete-tempfiles" with
        | .error e => .error e
        | .ok true => getboolean cfg "gist" "delete-tempfiles"
        | .ok false => .ok true
      match deleteRes with
      | .error e => .error e
      | .ok _ => .ok [⟨filename, editorOut⟩]
    else readFiles fs a.FILES
  else .ok [⟨argsGetFilename a, stdin⟩]

/-- Embeds the empty-content loop of the `create` branch: raise
`GistError("'<name>' is empty")` at the first entry with zero-length
content. -/
def emptyCheck : List FileInfo → Except PyErr Unit
  | [] => .ok ()
  | f :: rest =>
    if f.content.length == 0 then
      .error (.gistError ("'" ++ pyFmtName f.name ++ "' is empty"))
    else emptyCheck rest

/-- Embeds the encryption precondition check at the top of the `create`
branch (`client.py` lines 462-467): when `--encrypt` is requested, both
`gnupg-homedir` and `gnupg-fingerprint` must be present in the `gist`
section, checked in that order, each missing key raising a `GistError`. -/
def encCheck (cfg : Config) (encrypt : Bool) : Except PyErr Unit :=
  if encrypt then
    match has_option cfg "gist" "gnupg-homedir" with
    | .error e => .error e
    | .ok false => .error (.gistError "gnupg-homedir missing from config file")
    | .ok true =>
      match has_option cfg "gist" "gnupg-fingerprint" with
      | .error e => .error e
      | .ok false =>
        .error (.gistError "gnupg-fingerprint missing from config file")
      | .ok true => .ok ()
  else .ok ()

/-- The argument of the single remote `gapi.create(description, data,
public)` call: `data` is the Python mapping from file name to content
(insertion-ordered; a key is `none` when the Python name is `None`). -/
structure CreateRequest where
  desc : String
  data : List (Option String × String)
  public : Bool
deriving DecidableEq

/-- Embeds the payload build of the `create` branch: with `--encrypt`,
read the fingerprint and home directory and map every entry to
`<name>.asc` with the engine's ciphertext (`encFn` is the external
`gpg.encrypt` collaborator); otherwise the entries pass through
unchanged. -/
def buildData (cfg : Config) (a : CreateArgs) (files : List FileInfo)
    (encFn : String → String → String) :
    Except PyErr (List (Option String × String)) :=
  if a.encrypt then
    match configGet cfg "gist" "gnupg-fingerprint" with
    | .error e => .error e
    | .ok fingerprint =>
      match configGet cfg "gist" "gnupg-homedir" with
      | .error e => .error e
      | .ok _ =>
        .ok (files.map (fun f =>
          (some (pyFmtName f.name ++ ".asc"), encFn f.content fingerprint)))
  else .ok (files.map (fun f => (f.name, f.content)))

/-- Embeds the whole `create` branch of `main` (`client.py` lines
457-532): encryption precheck, content acquisition, empty-content
validation, payload build. A `.ok` result models exactly one remote
`gapi.create` call with that request; a `.error` result means the command
aborts and no remote call is made. -/
def createCommand (cfg : Config) (a : CreateArgs) (tty : Bool)
    (stdin : String) (fs : List (String × String)) (editorOut : String)
    (encFn : String → String → String) : Except PyErr CreateRequest :=
  match encCheck cfg a.encrypt with
  | .error e => .error e
  | .ok _ =>
    match acquireFiles cfg a tty stdin fs editorOut with
    | .error e => .error e
    | .ok files =>
      match emptyCheck files with
      | .error e => .error e
      | .ok _ =>
        match buildData cfg a files encFn with
        | .error e => .error e
        | .ok data => .ok ⟨a.desc, data, a.public⟩

/-- Embeds the `content` branch of `main` (`client.py` lines 397-427).
`content` is the remote `GistContent` in remote order, `filenameArg` the
parsed `<filename>` argument (`None` when absent), `decFn` the external
`gpg.decrypt` collaborator. The result is the ordered list of strings
passed to `print` (each of which the terminal follows with a newline). -/
def contentOutput (content : List (String × String))
    (filenameArg : Option String) (decrypt : Bool) (cfg : Config)
    (decFn : String → String) : Except PyErr (List String) :=
  let gist_file : Option String :=
    match filenameArg with
    | none => none
    | some k => (content.find? (fun p => p.1 == k)).map (fun p => p.2)
  if decrypt then
    match has_option cfg "gist" "gnupg-homedir" with
    | .error e => .error e
    | .ok false => .error (.gistError "gnupg-homedir missing from config file")
    | .ok true =>
      match configGet cfg "gist" "gnupg-homedir" with
      | .error e => .error e
      | .ok _ =>
        match gist_file with
        | some v => .ok [decFn v]
        | none =>
          .ok (content.map (fun p =>
            p.1 ++ " (decrypted):\n" ++ decFn p.2 ++ "\n"))
  else
    match gist_file with
    | some v => .ok [v]
    | none => .ok (content.map (fun p => p.1 ++ ":\n" ++ p.2 ++ "\n"))

/-- Embeds `elide(txt, width)` from `client.py`. Python strings are
modelled as `List Char` and the width (`None` when there is no terminal)
as `Option Int`: when the width is defined and greater than 3 and the
text is longer than the width, keep `width - 3` characters and append
three dots, else return the text unchanged. -/
def elide (txt : List Char) (width : Option Int) : List Char :=
  match width with
  | none => txt
  | some w =>
    if w > 3 then
      if (txt.length : Int) > w then
        txt.take (w - 3).toNat ++ ['.', '.', '.']
      else txt
    else txt

/-! Concrete fixtures used by witnesses and counterexamples. -/

/-- A minimal configuration: a `gist` section holding only a token. -/
def cfgToken : Config := [("gist", [("token", "t")])]

/-- A configuration whose `gist` section has an `editor` key. -/
def cfgEditor : Config := [("gist", [("editor", "nano")])]

/-- A configuration with `gnupg-homedir` but no `gnupg-fingerprint`. -/
def cfgHome : Config := [("gist", [("token", "t"), ("gnupg-homedir", "/g")])]

/-- A one-file filesystem. -/
def fsFoo : List (String × String) := [("foo.txt", "abc")]

/-- Parsed arguments: one explicit file path, no filename supplied (the
`"<filename>"` key is present with value `None`, as docopt produces). -/
def argsFiles : CreateArgs := ⟨"d", false, false, ["foo.txt"], some none⟩

/-- Parsed arguments: no file paths, no filename supplied. -/
def argsStdin : CreateArgs := ⟨"d", false, false, [], some none⟩

/-- Parsed arguments: encryption requested, one file path. -/
def argsEnc : CreateArgs := ⟨"d", false, true, ["x.txt"], some none⟩

/-! Helper lemmas shared by the claim theorems. -/

/-- When stdin is a terminal and file paths were supplied, acquisition is
exactly the files-mode read. -/
theorem acquire_interactive_files (cfg : Config) (a : CreateArgs)
    (stdin : String) (fs : List (String × String)) (editorOut : String)
    (h : a.FILES ≠ []) :
    acquireFiles cfg a true stdin fs editorOut = readFiles fs a.FILES := by
  have hne : a.FILES.isEmpty = false := by
    cases hF : a.FILES with
    | nil => exact absurd hF h
    | cons x xs => rfl
  simp [acquireFiles, hne]

/-- With the section present, `configGet` either succeeds or raises
exactly `NoOptionError`. -/
theorem configGet_section_cases (cfg : Config) (s o : String)
    (hs : hasSection cfg s = true) :
    (∃ v, configGet cfg s o = .ok v) ∨
    configGet cfg s o = .error (.noOptionError s o) := by
  unfold hasSection at hs
  obtain ⟨sec, hsec⟩ := Option.isSome_iff_exists.mp hs
  cases hfind : sec.2.find? (fun p => p.1 == o) with
  | none => exact Or.inr (by simp [configGet, hsec, hfind])
  | some kv => exact Or.inl ⟨kv.2, by simp [configGet, hsec, hfind]⟩

/-- The empty-content loop raises at the first empty entry. -/
theorem emptyCheck_find (files : List FileInfo) (f : FileInfo)
    (h : files.find? (fun fi => fi.content.length == 0) = some f) :
    emptyCheck files =
      .error (.gistError ("'" ++ pyFmtName f.name ++ "' is empty")) := by
  induction files with
  | nil => simp at h
  | cons g rest ih =>
    by_cases hg : (g.content.length == 0) = true
    · simp only [List.find?, hg] at h
      injection h with h
      subst h
      simp [emptyCheck, hg]
    · have hg' : (g.content.length == 0) = false := by
        simpa using hg
      simp only [List.find?, hg'] at h
      simp [emptyCheck, hg', ih h]

/-! The editor resolution exactly as claim C8 words it, as a refinement
specification to compare against the embedded code. -/

/-- Specification from the claim's words: the config value if present,
else the environment value if non-empty, else `/usr/bin/editor` if it
exists, else undefined. -/
def claimedEditor (cfg : Config) (env : Option String) (altExists : Bool) :
    Option String :=
  match configGet cfg "gist" "editor" with
  | .ok v => some v
  | .error _ =>
    match env with
    | some e =>
      if e != "" then some e
      else if altExists then some "/usr/bin/editor" else none
    | none => if altExists then some "/usr/bin/editor" else none

/-- The amended editor resolution: the config value if the `editor` key is
present, else the whitespace-stripped environment value if that is
non-empty after stripping, else `/usr/bin/editor` if it exists, else a
`ValueError`. -/
def amendedEditorSpec (cfg : Config) (env : Option String)
    (altExists : Bool) : Except PyErr String :=
  match configGet cfg "gist" "editor" with
  | .ok v => .ok v
  | .error _ =>
    let e := pyStrip (env.getD "")
    if e != "" then .ok e
    else if altExists then .ok "/usr/bin/editor"
    else .error (.valueError "Unable to find an editor.")

/-- The amended config-path resolution: first-hit-wins with
`$XDG_DATA_HOME/gist` checked first, then `~/.config/gist`, then
`~/.gist`. -/
def amendedConfigPathSpec (isfile : String → Bool) (home : String)
    (xdgDataHome : Option String) : String :=
  let xdg := pyStrip (xdgDataHome.getD "")
  if xdg != "" && isfile (pathJoin xdg "gist") then pathJoin xdg "gist"
  else if isfile (home ++ "/.config/gist") then home ++ "/.config/gist"
  else home ++ "/.gist"

/-- A filesystem oracle on which both `~/.config/gist` and
`$XDG_DATA_HOME/gist` (with `$XDG_DATA_HOME = /x`) are regular files. -/
def isfileBoth : String → Bool :=
  fun p => p == "/h/.config/gist" || p == "/x/gist"

/-! Claim theorems. -/

/-- C1 counterexample: with the file path `foo.txt` supplied but stdin
piped (non-interactive), the create routine reads standard input and does
not read the supplied file, so files mode does not win for every
combination of supplied file paths and stdin interactivity. -/
theorem c1_counterexample :
    acquireFiles cfgToken argsFiles false "piped content" fsFoo "edited" =
      .ok [⟨none, "piped content"⟩] ∧
    (⟨none, "piped content"⟩ : FileInfo) ≠ ⟨some "foo.txt", "abc"⟩ :=
  ⟨rfl, by decide⟩

/-- C1 amended: the files mode wins only when stdin is interactive; when
stdin is piped, the whole input becomes the sole entry even when file
paths are supplied. -/
theorem c1_amended (cfg : Config) (a : CreateArgs) (stdin : String)
    (fs : List (String × String)) (editorOut : String)
    (h : a.FILES ≠ []) :
    acquireFiles cfg a true stdin fs editorOut = readFiles fs a.FILES ∧
    acquireFiles cfg a false stdin fs editorOut =
      .ok [⟨argsGetFilename a, stdin⟩] :=
  ⟨acquire_interactive_files cfg a stdin fs editorOut h, rfl⟩

/-- C1 amended witness at a concrete input. -/
theorem c1_amended_witness :
    argsFiles.FILES ≠ [] ∧
    (acquireFiles cfgToken argsFiles true "s" fsFoo "e" =
        readFiles fsFoo argsFiles.FILES ∧
      acquireFiles cfgToken argsFiles false "s" fsFoo "e" =
        .ok [⟨argsGetFilename argsFiles, "s"⟩]) :=
  ⟨by decide, c1_amended cfgToken argsFiles "s" fsFoo "e" (by decide)⟩

/-- C2 counterexample: with a filename argument absent from the remote
content, the content command prints every entry instead of nothing. -/
theorem c2_counterexample :
    contentOutput [("a.txt", "hello"), ("b.txt", "world")] (some "c.txt")
        false cfgToken id =
      .ok ["a.txt:\nhello\n", "b.txt:\nworld\n"] ∧
    ["a.txt:\nhello\n", "b.txt:\nworld\n"] ≠ ([] : List String) :=
  ⟨rfl, by decide⟩

/-- C2 amended: with a filename argument, exactly that entry's content is
shown when the filename is present in the remote content; when it is
absent, every entry is shown in remote order, exactly as with no filename
argument. -/
theorem c2_amended (content : List (String × String)) (k : String)
    (cfg : Config) (decFn : String → String) :
    contentOutput content (some k) false cfg decFn =
      .ok (match content.find? (fun p => p.1 == k) with
        | some p => [p.2]
        | none => content.map (fun p => p.1 ++ ":\n" ++ p.2 ++ "\n")) := by
  unfold contentOutput
  cases h : content.find? (fun p => p.1 == k) <;> simp [h]

/-- C3 counterexample: when both `~/.config/gist` and
`$XDG_DATA_HOME/gist` exist as regular files, the resolved config path is
the XDG one, not `~/.config/gist`. -/
theorem c3_counterexample :
    resolveConfigPath isfileBoth "/h" (some "/x") = "/x/gist" ∧
    "/x/gist" ≠ "/h/.config/gist" :=
  ⟨rfl, by decide⟩

/-- C3 amended: the config file location is resolved first-hit-wins in
the order `$XDG_DATA_HOME/gist` (env var set, regular file), then
`~/.config/gist` (regular file), then `~/.gist`. -/
theorem c3_amended (isfile : String → Bool) (home : String)
    (xdgDataHome : Option String) :
    resolveConfigPath isfile home xdgDataHome =
      amendedConfigPathSpec isfile home xdgDataHome := by
  unfold resolveConfigPath amendedConfigPathSpec alternative_config
    xdg_data_config
  by_cases h1 : pyStrip (xdgDataHome.getD "") = ""
  · simp [h1]
  · by_cases h2 : isfile (pathJoin (pyStrip (xdgDataHome.getD "")) "gist")
    · simp [bne_iff_ne, h1, h2]
    · simp [bne_iff_ne, h1, h2]

/-- C4: the default entry name is never `file1.txt`. The parsed-argument
dictionary always contains the `"<filename>"` key (with `None` when no
filename was supplied), so `args.get("<filename>", "file1.txt")` returns
the stored `None` and the sole entry of the stdin and editor modes is
named `None`, contradicting the documented default. -/
theorem c4_default_name_bug :
    acquireFiles cfgToken argsStdin false "hello" [] "edited" =
      .ok [⟨none, "hello"⟩] ∧
    acquireFiles cfgToken ⟨"d", false, false, [], some (some "foo.md")⟩
        false "hello" [] "edited" =
      .ok [⟨some "foo.md", "hello"⟩] ∧
    (none : Option String) ≠ some "file1.txt" :=
  ⟨rfl, rfl, by decide⟩

/-- C5 counterexample: with an explicit file list and an explicit
filename override, the create routine succeeds (one remote call with the
file read from disk) instead of failing with a validation error. -/
theorem c5_counterexample :
    createCommand cfgToken ⟨"d", false, false, ["foo.txt"], some (some "bar.md")⟩
        true "" fsFoo "edited" (fun c _ => c) =
      .ok ⟨"d", [(some "foo.txt", "abc")], false⟩ :=
  rfl

/-- C5 amended: the conflict is rejected by the argument parser, not by
the routine; the routine itself, when stdin is interactive and file paths
are supplied, reads the files and ignores the filename override entirely
(the result does not depend on the filename entry, the piped input or the
editor output). -/
theorem c5_amended (cfg : Config) (d : String) (p e : Bool)
    (FILES : List String) (fe fe' : Option (Option String))
    (stdin stdin' : String) (fs : List (String × String))
    (edOut edOut' : String) (encFn : String → String → String)
    (h : FILES ≠ []) :
    createCommand cfg ⟨d, p, e, FILES, fe⟩ true stdin fs edOut encFn =
    createCommand cfg ⟨d, p, e, FILES, fe'⟩ true stdin' fs edOut' encFn := by
  have hA : acquireFiles cfg ⟨d, p, e, FILES, fe⟩ true stdin fs edOut =
      readFiles fs FILES :=
    acquire_interactive_files cfg ⟨d, p, e, FILES, fe⟩ stdin fs edOut h
  have hA' : acquireFiles cfg ⟨d, p, e, FILES, fe'⟩ true stdin' fs edOut' =
      readFiles fs FILES :=
    acquire_interactive_files cfg ⟨d, p, e, FILES, fe'⟩ stdin' fs edOut' h
  simp only [createCommand, buildData, hA, hA']

/-- C5 amended witness at a concrete input. -/
theorem c5_amended_witness :
    (["foo.txt"] : List String) ≠ [] ∧
    createCommand cfgToken ⟨"d", false, false, ["foo.txt"], some (some "bar.md")⟩
        true "ignored" fsFoo "also ignored" (fun c _ => c) =
      createCommand cfgToken ⟨"d", false, false, ["foo.txt"], some none⟩
        true "x" fsFoo "y" (fun c _ => c) :=
  ⟨by decide,
    c5_amended cfgToken "d" false false ["foo.txt"] (some (some "bar.md"))
      (some none) "ignored" "x" fsFoo "also ignored" "y" (fun c _ => c)
      (by decide)⟩

/-- C6: whenever acquisition succeeds and some entry has zero-length
content, the create routine aborts with the error naming the first such
empty entry, and no remote create call is made (the result is an error,
never a request). -/
theorem c6_empty_aborts (cfg : Config) (a : CreateArgs) (tty : Bool)
    (stdin : String) (fs : List (String × String)) (editorOut : String)
    (encFn : String → String → String) (files : List FileInfo)
    (f : FileInfo)
    (hEnc : encCheck cfg a.encrypt = .ok ())
    (hAcq : acquireFiles cfg a tty stdin fs editorOut = .ok files)
    (hFind : files.find? (fun fi => fi.content.length == 0) = some f) :
    createCommand cfg a tty stdin fs editorOut encFn =
      .error (.gistError ("'" ++ pyFmtName f.name ++ "' is empty")) := by
  simp only [createCommand, hEnc, hAcq, emptyCheck_find files f hFind]

/-- C6 witness: piping empty input aborts with the error naming the sole
(empty) entry. -/
theorem c6_witness :
    encCheck cfgToken argsStdin.encrypt = .ok () ∧
    acquireFiles cfgToken argsStdin false "" [] "e" = .ok [⟨none, ""⟩] ∧
    ([(⟨none, ""⟩ : FileInfo)].find? (fun fi => fi.content.length == 0) =
      some ⟨none, ""⟩) ∧
    createCommand cfgToken argsStdin false "" [] "e" (fun c _ => c) =
      .error (.gistError "'None' is empty") :=
  ⟨rfl, rfl, rfl,
    c6_empty_aborts cfgToken argsStdin false "" [] "e" (fun c _ => c)
      [⟨none, ""⟩] ⟨none, ""⟩ rfl rfl rfl⟩

/-- C7: with encryption requested, a missing `gnupg-homedir` or
`gnupg-fingerprint` key makes the create routine fail with the
corresponding error for every stdin/terminal/filesystem/editor state —
that is, before any file, editor or stdin content is read. -/
theorem c7_encrypt_precheck (cfg : Config) (a : CreateArgs) (tty : Bool)
    (stdin : String) (fs : List (String × String)) (editorOut : String)
    (encFn : String → String → String) (hEnc : a.encrypt = true) :
    (has_option cfg "gist" "gnupg-homedir" = .ok false →
      createCommand cfg a tty stdin fs editorOut encFn =
        .error (.gistError "gnupg-homedir missing from config file")) ∧
    (has_option cfg "gist" "gnupg-homedir" = .ok true →
      has_option cfg "gist" "gnupg-fingerprint" = .ok false →
      createCommand cfg a tty stdin fs editorOut encFn =
        .error (.gistError "gnupg-fingerprint missing from config file")) := by
  constructor
  · intro h1
    simp only [createCommand, encCheck, hEnc, if_true, h1]
  · intro h1 h2
    simp only [createCommand, encCheck, hEnc, if_true, h1, h2]

/-- C7 witness: fingerprint missing while the homedir is present, with a
readable file supplied — the routine still fails with the fingerprint
error. -/
theorem c7_witness :
    argsEnc.encrypt = true ∧
    has_option cfgHome "gist" "gnupg-homedir" = .ok true ∧
    has_option cfgHome "gist" "gnupg-fingerprint" = .ok false ∧
    createCommand cfgHome argsEnc true "s" [("x.txt", "y")] "e"
        (fun c _ => c) =
      .error (.gistError "gnupg-fingerprint missing from config file") :=
  ⟨rfl, rfl, rfl,
    (c7_encrypt_precheck cfgHome argsEnc true "s" [("x.txt", "y")] "e"
      (fun c _ => c) rfl).2 rfl rfl⟩

/-- C8 counterexample: with no `editor` config key, a whitespace-only
`EDITOR` environment value (which is non-empty) and no
`/usr/bin/editor`, the claim demands that the environment value be the
resolved editor, but the code strips it and fails instead. -/
theorem c8_counterexample :
    claimedEditor cfgToken (some " ") false = some " " ∧
    resolveEditor cfgToken (some " ") false =
      .error (.valueError "Unable to find an editor.") ∧
    (" " : String) ≠ "" :=
  ⟨rfl, rfl, by decide⟩

/-- C8 amended: when the config file has a `gist` section, the resolved
editor is the config value if the `editor` key is present, else the
whitespace-stripped environment value if non-empty after stripping, else
`/usr/bin/editor` if it exists, else the command fails. -/
theorem c8_amended (cfg : Config) (env : Option String) (altExists : Bool)
    (hs : hasSection cfg "gist" = true) :
    resolveEditor cfg env altExists = amendedEditorSpec cfg env altExists := by
  unfold resolveEditor configuration_editor amendedEditorSpec
  rcases configGet_section_cases cfg "gist" "editor" hs with ⟨v, hv⟩ | hv
  · simp [hv]
  · simp only [hv]
    unfold environment_editor alternative_editor
    by_cases h1 : pyStrip (env.getD "") = ""
    · by_cases h2 : altExists
      · simp [h1, h2]
      · simp [h1, h2]
    · simp [bne_iff_ne, h1]

/-- C8 amended witness at a concrete input: the config value wins. -/
theorem c8_amended_witness :
    hasSection cfgEditor "gist" = true ∧
    resolveEditor cfgEditor (some "vim") true =
      amendedEditorSpec cfgEditor (some "vim") true :=
  ⟨rfl, c8_amended cfgEditor (some "vim") true rfl⟩

/-- C9: elide is idempotent for every text and every width, including an
undefined width. -/
theorem c9_elide_idempotent (txt : List Char) (width : Option Int) :
    elide (elide txt width) width = elide txt width := by
  cases width with
  | none => rfl
  | some w =>
    by_cases h3 : w > 3
    · by_cases hl : (txt.length : Int) > w
      · have he : elide txt (some w) =
            List.take (w - 3).toNat txt ++ ['.', '.', '.'] := by
          simp only [elide]
          rw [if_pos h3, if_pos hl]
        rw [he]
        have hcond :
            ¬(((List.take (w - 3).toNat txt ++ ['.', '.', '.']).length : Int)
              > w) := by
          rw [List.length_append, List.length_take]
          simp only [List.length_cons, List.length_nil]
          push_cast
          omega
        simp only [elide]
        rw [if_pos h3, if_neg hcond]
      · simp [elide, h3, hl]
    · simp [elide, h3]

/-- C10: when the parsed configuration has no `gist` section, editor
resolution raises the uncaught section error for every environment editor
value and every state of `/usr/bin/editor` — it never falls back to them. -/
theorem c10_no_section (cfg : Config) (env : Option String)
    (altExists : Bool) (h : hasSection cfg "gist" = false) :
    resolveEditor cfg env altExists = .error (.noSectionError "gist") := by
  have hf : cfg.find? (fun p => p.1 == "gist") = none := by
    unfold hasSection at h
    cases hx : cfg.find? (fun p => p.1 == "gist") with
    | none => rfl
    | some sec => rw [hx] at h; simp at h
  simp only [resolveEditor, configuration_editor, configGet, hf]

/-- C10 witness: a parsed config with only another section, an available
environment editor and an existing `/usr/bin/editor` — resolution still
fails with the section error. -/
theorem c10_witness :
    hasSection ([("other", [("a", "b")])] : Config) "gist" = false ∧
    resolveEditor [("other", [("a", "b")])] (some "vim") true =
      .error (.noSectionError "gist") :=
  ⟨rfl, c10_no_section [("other", [("a", "b")])] (some "vim") true rfl⟩

end Gist
